import Mathlib

/-!
Shallow embedding of the Bridge example of esp-apple-homekit-adk
(examples/Bridge/main: App.c, light.c, light.h, switch.c, switch.h).

Conventions of the embedding:
* C byte buffers become `List Nat`, every element kept below 256 by an
  explicit `% 256` wherever the C code stores into a `uint8_t` slot.
* C unsigned integers become `Nat` with an explicit `% 2^w` wherever C
  arithmetic wraps; `int32_t` fields are modelled by their 32-bit
  two's-complement bit pattern (a `Nat` below `2^32`), which is faithful
  because the code only compares them for equality, stores them, and
  converts them to `uint8_t` (the low byte, i.e. `% 256` of the pattern).
* The two `float` fields (hue, saturation) are only ever compared for
  equality, persisted verbatim, and converted to unsigned integers, so
  they are modelled by the numeric value carried, as a `Nat`.
* The external key-value store (out of scope for the repository) holds an
  optional byte record per (domain, key); `HAPPlatformKeyValueStoreGet`
  reports whether the record exists and its stored size, which is what
  `LoadAccessoryState` checks against `sizeof`.
* Side effects of the callback handlers (mesh sends, state saves, raised
  events) are collected in explicit result structures.
-/

namespace Bridge

/-- The persisted accessory state struct of App.c
(`AccessoryConfiguration.state`): bool lightBulbOn, float lightBulbHue,
float lightBulbSaturation, int32 lightBulbBrightness, bool whiteOn,
int32 whiteBrightness, uint32 whiteColorTemperature. -/
structure AccessoryState where
  lightBulbOn : Bool
  lightBulbHue : Nat
  lightBulbSaturation : Nat
  lightBulbBrightness : Nat
  whiteOn : Bool
  whiteBrightness : Nat
  whiteColorTemperature : Nat
deriving DecidableEq, Repr

/-- The all-zero accessory state (`HAPRawBufferZero` over the struct). -/
def zeroState : AccessoryState :=
  { lightBulbOn := false
    lightBulbHue := 0
    lightBulbSaturation := 0
    lightBulbBrightness := 0
    whiteOn := false
    whiteBrightness := 0
    whiteColorTemperature := 0 }

/-- Validity of a state: every 32-bit scalar field fits in 32 bits.  This
is guaranteed in the C code by the field types of the struct. -/
def ValidAccessoryState (s : AccessoryState) : Prop :=
  s.lightBulbHue < 2 ^ 32 ∧ s.lightBulbSaturation < 2 ^ 32 ∧
  s.lightBulbBrightness < 2 ^ 32 ∧ s.whiteBrightness < 2 ^ 32 ∧
  s.whiteColorTemperature < 2 ^ 32

instance (s : AccessoryState) : Decidable (ValidAccessoryState s) := by
  unfold ValidAccessoryState; infer_instance

/-- Four little-endian bytes of a 32-bit scalar (the in-memory image of
one 4-byte struct field). -/
def enc4 (n : Nat) : List Nat :=
  [n % 256, n / 256 % 256, n / 65536 % 256, n / 16777216 % 256]

/-- Recombine four little-endian bytes into the 32-bit scalar. -/
def dec4 (a b c d : Nat) : Nat :=
  a + 256 * b + 65536 * c + 16777216 * d

/-- The 4-byte image of a `bool` struct member followed by the three
padding bytes, which stay zero because the whole struct is zeroed at
startup and only whole fields are ever assigned. -/
def encBool (b : Bool) : List Nat :=
  [if b then 1 else 0, 0, 0, 0]

/-- The byte image of the state struct, as `memcpy` sees it: the seven
4-byte-aligned fields in declaration order, 28 bytes total.  The IEEE
image of the two float fields is modelled by the 4-byte little-endian
image of the carried value, which is likewise injective. -/
def encodeState (s : AccessoryState) : List Nat :=
  encBool s.lightBulbOn ++ enc4 s.lightBulbHue ++ enc4 s.lightBulbSaturation ++
  enc4 s.lightBulbBrightness ++ encBool s.whiteOn ++ enc4 s.whiteBrightness ++
  enc4 s.whiteColorTemperature

/-- Byte at offset `i` of a buffer (zero beyond the end). -/
def byteAt (l : List Nat) (i : Nat) : Nat := l.getD i 0

/-- Reading the struct back from its byte image: each field is decoded
from its offset. -/
def decodeState (l : List Nat) : AccessoryState :=
  { lightBulbOn := byteAt l 0 != 0
    lightBulbHue := dec4 (byteAt l 4) (byteAt l 5) (byteAt l 6) (byteAt l 7)
    lightBulbSaturation := dec4 (byteAt l 8) (byteAt l 9) (byteAt l 10) (byteAt l 11)
    lightBulbBrightness := dec4 (byteAt l 12) (byteAt l 13) (byteAt l 14) (byteAt l 15)
    whiteOn := byteAt l 16 != 0
    whiteBrightness := dec4 (byteAt l 20) (byteAt l 21) (byteAt l 22) (byteAt l 23)
    whiteColorTemperature := dec4 (byteAt l 24) (byteAt l 25) (byteAt l 26) (byteAt l 27) }

/-- The external key-value store: an optional byte record per
(domain, key) pair. -/
def Store : Type := Nat → Nat → Option (List Nat)

/-- The empty store. -/
def emptyStore : Store := fun _ _ => none

/-- `HAPPlatformKeyValueStoreSet`: replace the record under
(domain, key). -/
def HAPPlatformKeyValueStoreSet (store : Store) (domain key : Nat)
    (bytes : List Nat) : Store :=
  fun d k => if d = domain ∧ k = key then some bytes else store d k

/-- Domain 0x00 used for application data. -/
def kAppKeyValueStoreDomain_Configuration : Nat := 0

/-- Key 0x00 used for the configuration state record. -/
def kAppKeyValueStoreKey_Configuration_State : Nat := 0

/-- Size in bytes of `accessoryConfiguration.state`. -/
def sizeofAccessoryState : Nat := 28

/-- `LoadAccessoryState` of App.c: fetch the record under domain 0, key 0;
if it is absent, or present with a size other than
`sizeof accessoryConfiguration.state`, zero the in-memory state;
otherwise the fetched bytes are the new in-memory state. -/
def LoadAccessoryState (store : Store) : AccessoryState :=
  match store kAppKeyValueStoreDomain_Configuration
      kAppKeyValueStoreKey_Configuration_State with
  | none => zeroState
  | some bytes =>
      if bytes.length = sizeofAccessoryState then decodeState bytes else zeroState

/-- `SaveAccessoryState` of App.c: write the byte image of the state under
domain 0, key 0. -/
def SaveAccessoryState (store : Store) (s : AccessoryState) : Store :=
  HAPPlatformKeyValueStoreSet store kAppKeyValueStoreDomain_Configuration
    kAppKeyValueStoreKey_Configuration_State (encodeState s)

theorem dec4_enc4 (n : Nat) (h : n < 2 ^ 32) :
    dec4 (n % 256) (n / 256 % 256) (n / 65536 % 256) (n / 16777216 % 256) = n := by
  unfold dec4
  omega

theorem encodeState_length (s : AccessoryState) :
    (encodeState s).length = 28 := by
  simp [encodeState, encBool, enc4]

/-- C1 support: decoding the byte image gives the state back. -/
theorem decode_encode (s : AccessoryState) (h : ValidAccessoryState s) :
    decodeState (encodeState s) = s := by
  obtain ⟨ob, hue, sat, bri, wb, wbri, wct⟩ := s
  obtain ⟨h1, h2, h3, h4, h5⟩ := h
  simp only [encodeState, encBool, enc4, List.cons_append, List.nil_append]
  simp only [decodeState, byteAt, List.getD_cons_zero, List.getD_cons_succ]
  simp only [AccessoryState.mk.injEq]
  refine ⟨?_, ?_, ?_, ?_, ?_, ?_, ?_⟩
  · cases ob <;> simp
  · exact dec4_enc4 hue h1
  · exact dec4_enc4 sat h2
  · exact dec4_enc4 bri h3
  · cases wb <;> simp
  · exact dec4_enc4 wbri h4
  · exact dec4_enc4 wct h5

/-- C1: persistence round-trip.  For every valid accessory state `s` and
every starting store, `SaveAccessoryState` followed by
`LoadAccessoryState` on the same key-value store yields exactly `s` in
the in-memory state struct. -/
theorem save_load_roundtrip (store : Store) (s : AccessoryState)
    (h : ValidAccessoryState s) :
    LoadAccessoryState (SaveAccessoryState store s) = s := by
  unfold LoadAccessoryState SaveAccessoryState HAPPlatformKeyValueStoreSet
  simp only [kAppKeyValueStoreDomain_Configuration,
    kAppKeyValueStoreKey_Configuration_State, and_self, if_true]
  rw [encodeState_length]
  simp only [sizeofAccessoryState, if_true]
  exact decode_encode s h

/-- A sample valid state used to witness the round-trip. -/
def sampleState : AccessoryState :=
  { lightBulbOn := true
    lightBulbHue := 350
    lightBulbSaturation := 77
    lightBulbBrightness := 64
    whiteOn := false
    whiteBrightness := 100
    whiteColorTemperature := 200 }

/-- C1 witness: the round-trip at a concrete valid state on the empty
store. -/
theorem save_load_roundtrip_witness :
    ValidAccessoryState sampleState ∧
      LoadAccessoryState (SaveAccessoryState emptyStore sampleState) = sampleState :=
  ⟨by decide, save_load_roundtrip emptyStore sampleState (by decide)⟩

/-- C5: persistence recovery.  For every store content, loading never
fails the caller (it is a total function into `AccessoryState`); when the
record is absent, or present with a size different from the state struct,
the in-memory state is the all-zero value. -/
theorem load_recovery (store : Store) :
    (store 0 0 = none → LoadAccessoryState store = zeroState) ∧
      (∀ bytes : List Nat, store 0 0 = some bytes → bytes.length ≠ 28 →
        LoadAccessoryState store = zeroState) := by
  constructor
  · intro h
    unfold LoadAccessoryState
    simp only [kAppKeyValueStoreDomain_Configuration,
      kAppKeyValueStoreKey_Configuration_State, h]
  · intro bytes h hlen
    unfold LoadAccessoryState
    simp only [kAppKeyValueStoreDomain_Configuration,
      kAppKeyValueStoreKey_Configuration_State, h, sizeofAccessoryState,
      if_neg hlen]

/-- A store holding a record of the wrong size (3 bytes) under the
configuration key. -/
def wrongSizeStore : Store :=
  fun d k => if d = 0 ∧ k = 0 then some [1, 2, 3] else none

/-- C5 witness: the absent-record case on the empty store and the
wrong-size case on a concrete 3-byte record both load as the zero
state. -/
theorem load_recovery_witness :
    LoadAccessoryState emptyStore = zeroState ∧
      LoadAccessoryState wrongSizeStore = zeroState :=
  ⟨(load_recovery emptyStore).1 rfl,
   (load_recovery wrongSizeStore).2 [1, 2, 3] rfl (by decide)⟩

/-- `MeshSetOnOff` of App.c: 4-byte on/off packet, transaction id 0x00,
opcode bytes 0x00 0x01, payload byte 0/1. -/
def MeshSetOnOff (onff : Bool) : List Nat :=
  [0x00, 0x00, 0x01, if onff then 1 else 0]

/-- `MeshSetHSB` of App.c: 7-byte HSV packet.  The C parameters `hue` and
`saturation` are floats; the code converts `hue` to `uint16_t` before
splitting it into two little-endian bytes and `saturation` to `uint8_t`;
`brightness` is already `uint8_t`.  The conversions appear as `% 65536`
and `% 256`. -/
def MeshSetHSB (hue saturation brightness : Nat) : List Nat :=
  [0x00, 0x23, 0x01,
   hue % 65536 % 256, hue % 65536 / 256,
   saturation % 256,
   brightness % 256]

/-- `MeshSetBrightness` of App.c: 5-byte brightness packet.  The
parameter is `uint8_t`, so it is reduced `% 256` on entry; the code then
stores `brightness & 0xFF` and `brightness >> 8`. -/
def MeshSetBrightness (brightness : Nat) : List Nat :=
  [0x00, 0x21, 0x01, brightness % 256 % 256, brightness % 256 / 256]

/-- `MeshSetColorTemperature` of App.c: 4-byte color-temperature packet.
The parameter is `uint32_t` (reduced `% 2^32` on entry); the C expression
`(300 - colorTemperature) * 100 / 350` is computed in unsigned 32-bit
arithmetic (subtraction and multiplication wrap `% 2^32`) and the result
is stored into a `uint8_t` slot (`% 256`). -/
def MeshSetColorTemperature (colorTemperature : Nat) : List Nat :=
  [0x00, 0xF1, 0x01,
   (300 + 2 ^ 32 - colorTemperature % 2 ^ 32) % 2 ^ 32 * 100 % 2 ^ 32 / 350 % 256]

/-- `light_set_on_internal` of light.c: same 4-byte on/off packet. -/
def light_set_on_internal (lighton : Bool) : List Nat :=
  [0x00, 0x00, 0x01, if lighton then 1 else 0]

/-- `light_set_hsv_internal` of light.c: 7-byte HSV packet from a
`uint16_t` hue and `uint8_t` saturation and value (parameters reduced on
entry); the code stores `hue & 0xFF` and `hue >> 8`. -/
def light_set_hsv_internal (hue saturation value : Nat) : List Nat :=
  [0x00, 0x23, 0x01,
   hue % 65536 % 256, hue % 65536 / 256,
   saturation % 256,
   value % 256]

/-- `light_set_brightness_internal` of light.c: 5-byte brightness packet
from a `uint8_t` brightness; the code stores the brightness byte followed
by a literal 0x00. -/
def light_set_brightness_internal (brightness : Nat) : List Nat :=
  [0x00, 0x21, 0x01, brightness % 256, 0x00]

/-- `light_set_temperature_internal` of light.c: 4-byte packet carrying
the already-encoded `uint8_t` color-temperature percent. -/
def light_set_temperature_internal (temperature : Nat) : List Nat :=
  [0x00, 0xF1, 0x01, temperature % 256]

/-- `switch_set_on_internal` of switch.c: 4-byte on/off packet. -/
def switch_set_on_internal (swon : Bool) : List Nat :=
  [0x00, 0x00, 0x01, if swon then 1 else 0]

/-- C7: HSV packet layout.  For every in-range hue, saturation and value,
the HSV command built by light.c is exactly 7 bytes: byte 0 the constant
transaction id 0x00, bytes 1-2 the opcode 0x23 0x01, bytes 3-4 the hue in
little-endian (byte 3 + 256 * byte 4 recombine to the hue), byte 5 the
saturation and byte 6 the value; the App.c builder `MeshSetHSB` produces
the identical packet. -/
theorem hsv_packet_layout (hue saturation value : Nat)
    (hh : hue < 65536) (hs : saturation < 256) (hv : value < 256) :
    light_set_hsv_internal hue saturation value =
        [0x00, 0x23, 0x01, hue % 256, hue / 256, saturation, value] ∧
      (light_set_hsv_internal hue saturation value).length = 7 ∧
      hue % 256 + 256 * (hue / 256) = hue ∧
      MeshSetHSB hue saturation value = light_set_hsv_internal hue saturation value := by
  unfold light_set_hsv_internal MeshSetHSB
  refine ⟨?_, rfl, by omega, rfl⟩
  simp [Nat.mod_eq_of_lt hh, Nat.mod_eq_of_lt hs, Nat.mod_eq_of_lt hv]

/-- C7 witness: the layout at hue 3000, saturation 50, value 77. -/
theorem hsv_packet_layout_witness :
    light_set_hsv_internal 3000 50 77 =
        [0x00, 0x23, 0x01, 3000 % 256, 3000 / 256, 50, 77] ∧
      (light_set_hsv_internal 3000 50 77).length = 7 ∧
      3000 % 256 + 256 * (3000 / 256) = 3000 ∧
      MeshSetHSB 3000 50 77 = light_set_hsv_internal 3000 50 77 :=
  hsv_packet_layout 3000 50 77 (by decide) (by decide) (by decide)

/-- C8: brightness-encoder equivalence across revisions.  For every
`uint8_t` brightness `b`, the App.c builder `MeshSetBrightness` and the
light.c builder `light_set_brightness_internal` produce the identical
5-byte packet 0x00, 0x21, 0x01, b, 0x00. -/
theorem brightness_encoders_agree (b : Nat) (hb : b < 256) :
    MeshSetBrightness b = light_set_brightness_internal b ∧
      MeshSetBrightness b = [0x00, 0x21, 0x01, b, 0x00] := by
  unfold MeshSetBrightness light_set_brightness_internal
  constructor <;> simp [Nat.mod_eq_of_lt hb, Nat.div_eq_of_lt hb]

/-- C8 witness: both builders at brightness 100. -/
theorem brightness_encoders_agree_witness :
    MeshSetBrightness 100 = light_set_brightness_internal 100 ∧
      MeshSetBrightness 100 = [0x00, 0x21, 0x01, 100, 0x00] :=
  brightness_encoders_agree 100 (by decide)

/-- C3 counterexample: at the input T = -1000 (as the uint32 bit pattern
4294966296), the truncating-integer-division formula (300 - T) * 100 /
350 yields 371, but the payload byte of the command the code builds is
115 (the quotient is reduced mod 256 when stored into the uint8 payload
slot), so the payload byte does not equal the formula for every input. -/
theorem color_temperature_formula_cex :
    MeshSetColorTemperature 4294966296 = [0x00, 0xF1, 0x01, 115] ∧
      ((300 - (-1000 : Int)) * 100).tdiv 350 = 371 ∧ (115 : Int) ≠ 371 := by
  refine ⟨by decide, by decide, by decide⟩

/-- C3 amended: the payload byte of the color-temperature command is
`(300 - T) * 100 / 350` computed in unsigned 32-bit arithmetic and
reduced mod 256 when stored into the byte slot; it therefore equals the
truncating-integer-division formula `(300 - T) * 100 / 350` exactly when
that quotient fits in a byte, i.e. for -595 <= T <= 300 (with a negative
T entering as its unsigned 32-bit representation); in particular
encode(300) = 0 and encode(-50) = 100. -/
theorem color_temperature_encoding (T : Int) (hlo : -595 ≤ T) (hhi : T ≤ 300) :
    MeshSetColorTemperature ((T + 2 ^ 32).toNat % 2 ^ 32) =
      [0x00, 0xF1, 0x01, (((300 - T) * 100).tdiv 350).toNat] := by
  obtain ⟨n, hTn, hn895⟩ : ∃ n : Nat, 300 - T = (n : Int) ∧ n ≤ 895 :=
    ⟨(300 - T).toNat, by omega, by omega⟩
  have hrhs : (((300 - T) * 100).tdiv 350).toNat = n * 100 / 350 := by
    rw [hTn]
    have h1 : ((n : Int) * 100) = ((n * 100 : Nat) : Int) := by push_cast; ring
    rw [h1]
    rfl
  have hT : T = 300 - (n : Int) := by omega
  subst hT
  unfold MeshSetColorTemperature
  rw [hrhs]
  have hkey :
      (300 + 2 ^ 32 - ((300 - (n : Int) + 2 ^ 32).toNat % 2 ^ 32) % 2 ^ 32) %
          2 ^ 32 * 100 % 2 ^ 32 / 350 % 256 = n * 100 / 350 := by
    have h1 :
        (300 + 2 ^ 32 - ((300 - (n : Int) + 2 ^ 32).toNat % 2 ^ 32) % 2 ^ 32) %
          2 ^ 32 = n := by omega
    rw [h1, Nat.mod_eq_of_lt (show n * 100 < 2 ^ 32 by omega)]
    exact Nat.mod_eq_of_lt (by omega)
  rw [hkey]

/-- C3 witness: the amended encoding at T = -50, whose unsigned 32-bit
representation is 4294967246; the payload byte is 100. -/
theorem color_temperature_encoding_witness :
    MeshSetColorTemperature (((-50 : Int) + 2 ^ 32).toNat % 2 ^ 32) =
      [0x00, 0xF1, 0x01, (((300 - (-50 : Int)) * 100).tdiv 350).toNat] :=
  color_temperature_encoding (-50) (by decide) (by decide)

/-- Side effects of a write handler: mesh packets sent (in order), the
states passed to `SaveAccessoryState` (in order), and the number of
`HAPAccessoryServerRaiseEvent` calls. -/
structure WriteResult where
  state : AccessoryState
  sends : List (List Nat)
  saves : List AccessoryState
  events : Nat
deriving DecidableEq, Repr

/-- A handler invocation that changes nothing and performs no effect. -/
def noopWrite (s : AccessoryState) : WriteResult :=
  { state := s, sends := [], saves := [], events := 0 }

/-- `HandleLightBulbOnWrite` of App.c: if the value differs from the
current field, update the field, send the on/off packet, persist, and
raise the event; otherwise do nothing. -/
def HandleLightBulbOnWrite (s : AccessoryState) (value : Bool) : WriteResult :=
  if s.lightBulbOn ≠ value then
    let s1 := { s with lightBulbOn := value }
    { state := s1, sends := [MeshSetOnOff s1.lightBulbOn], saves := [s1], events := 1 }
  else noopWrite s

/-- `HandleLightBulbHueWrite` of App.c. -/
def HandleLightBulbHueWrite (s : AccessoryState) (value : Nat) : WriteResult :=
  if s.lightBulbHue ≠ value then
    let s1 := { s with lightBulbHue := value }
    { state := s1
      sends := [MeshSetHSB s1.lightBulbHue s1.lightBulbSaturation s1.lightBulbBrightness]
      saves := [s1], events := 1 }
  else noopWrite s

/-- `HandleLightBulbSaturationWrite` of App.c. -/
def HandleLightBulbSaturationWrite (s : AccessoryState) (value : Nat) : WriteResult :=
  if s.lightBulbSaturation ≠ value then
    let s1 := { s with lightBulbSaturation := value }
    { state := s1
      sends := [MeshSetHSB s1.lightBulbHue s1.lightBulbSaturation s1.lightBulbBrightness]
      saves := [s1], events := 1 }
  else noopWrite s

/-- `HandleLightBulbBrightnessWrite` of App.c. -/
def HandleLightBulbBrightnessWrite (s : AccessoryState) (value : Nat) : WriteResult :=
  if s.lightBulbBrightness ≠ value then
    let s1 := { s with lightBulbBrightness := value }
    { state := s1
      sends := [MeshSetHSB s1.lightBulbHue s1.lightBulbSaturation s1.lightBulbBrightness]
      saves := [s1], events := 1 }
  else noopWrite s

/-- `HandleWhiteOnWrite` of App.c. -/
def HandleWhiteOnWrite (s : AccessoryState) (value : Bool) : WriteResult :=
  if s.whiteOn ≠ value then
    let s1 := { s with whiteOn := value }
    { state := s1, sends := [MeshSetOnOff s1.whiteOn], saves := [s1], events := 1 }
  else noopWrite s

/-- `HandleWhiteBrightnessWrite` of App.c; the mesh send passes the
`int32_t` value to the `uint8_t` parameter of `MeshSetBrightness`, which
keeps the low byte. -/
def HandleWhiteBrightnessWrite (s : AccessoryState) (value : Nat) : WriteResult :=
  if s.whiteBrightness ≠ value then
    let s1 := { s with whiteBrightness := value }
    { state := s1, sends := [MeshSetBrightness value], saves := [s1], events := 1 }
  else noopWrite s

/-- `HandleWhiteColorTemperatureWrite` of App.c. -/
def HandleWhiteColorTemperatureWrite (s : AccessoryState) (value : Nat) : WriteResult :=
  if s.whiteColorTemperature ≠ value then
    let s1 := { s with whiteColorTemperature := value }
    { state := s1, sends := [MeshSetColorTemperature value], saves := [s1], events := 1 }
  else noopWrite s

/-- Result of a read handler: the possibly updated state, the states
persisted while serving the read, and the value delivered to the
caller. -/
structure ReadResult (α : Type) where
  state : AccessoryState
  saves : List AccessoryState
  value : α
deriving DecidableEq, Repr

/-- `HandleLightBulbOnRead` of App.c: return the field, no state change,
no I/O. -/
def HandleLightBulbOnRead (s : AccessoryState) : ReadResult Bool :=
  { state := s, saves := [], value := s.lightBulbOn }

/-- `HandleLightBulbHueRead` of App.c. -/
def HandleLightBulbHueRead (s : AccessoryState) : ReadResult Nat :=
  { state := s, saves := [], value := s.lightBulbHue }

/-- `HandleLightBulbSaturationRead` of App.c. -/
def HandleLightBulbSaturationRead (s : AccessoryState) : ReadResult Nat :=
  { state := s, saves := [], value := s.lightBulbSaturation }

/-- `HandleLightBulbBrightnessRead` of App.c. -/
def HandleLightBulbBrightnessRead (s : AccessoryState) : ReadResult Nat :=
  { state := s, saves := [], value := s.lightBulbBrightness }

/-- `HandleWhiteOnRead` of App.c. -/
def HandleWhiteOnRead (s : AccessoryState) : ReadResult Bool :=
  { state := s, saves := [], value := s.whiteOn }

/-- `HandleWhiteBrightnessRead` of App.c. -/
def HandleWhiteBrightnessRead (s : AccessoryState) : ReadResult Nat :=
  { state := s, saves := [], value := s.whiteBrightness }

/-- `HandleWhiteColorTemperatureRead` of App.c: if the stored value is
below 50 it is first set to 50 and the corrected state is persisted; the
value delivered is read from the (possibly corrected) field. -/
def HandleWhiteColorTemperatureRead (s : AccessoryState) : ReadResult Nat :=
  if s.whiteColorTemperature < 50 then
    let s1 := { s with whiteColorTemperature := 50 }
    { state := s1, saves := [s1], value := s1.whiteColorTemperature }
  else { state := s, saves := [], value := s.whiteColorTemperature }

/-- C4: write-callback idempotence.  For every write handler, a write
whose value equals the current in-memory field is a complete no-op (no
state change, no send, no persist, no event); and calling the on/off
write with `true` twice from an off state triggers exactly one event and
exactly one transport send across the two calls. -/
theorem write_idempotence (s : AccessoryState) (b : Bool) (n : Nat) :
    (b = s.lightBulbOn → HandleLightBulbOnWrite s b = noopWrite s) ∧
      (n = s.lightBulbHue → HandleLightBulbHueWrite s n = noopWrite s) ∧
      (n = s.lightBulbSaturation → HandleLightBulbSaturationWrite s n = noopWrite s) ∧
      (n = s.lightBulbBrightness → HandleLightBulbBrightnessWrite s n = noopWrite s) ∧
      (b = s.whiteOn → HandleWhiteOnWrite s b = noopWrite s) ∧
      (n = s.whiteBrightness → HandleWhiteBrightnessWrite s n = noopWrite s) ∧
      (n = s.whiteColorTemperature → HandleWhiteColorTemperatureWrite s n = noopWrite s) ∧
      (s.lightBulbOn = false →
        (HandleLightBulbOnWrite s true).events = 1 ∧
          (HandleLightBulbOnWrite s true).sends.length = 1 ∧
          HandleLightBulbOnWrite (HandleLightBulbOnWrite s true).state true =
            noopWrite (HandleLightBulbOnWrite s true).state) := by
  refine ⟨?_, ?_, ?_, ?_, ?_, ?_, ?_, ?_⟩
  · intro h
    simp [HandleLightBulbOnWrite, h]
  · intro h
    simp [HandleLightBulbHueWrite, h]
  · intro h
    simp [HandleLightBulbSaturationWrite, h]
  · intro h
    simp [HandleLightBulbBrightnessWrite, h]
  · intro h
    simp [HandleWhiteOnWrite, h]
  · intro h
    simp [HandleWhiteBrightnessWrite, h]
  · intro h
    simp [HandleWhiteColorTemperatureWrite, h]
  · intro h
    simp [HandleLightBulbOnWrite, h, noopWrite]

/-- C4 witness: the no-op cases and the double-write case at the zero
state (which is off). -/
theorem write_idempotence_witness :
    HandleLightBulbOnWrite zeroState false = noopWrite zeroState ∧
      (HandleLightBulbOnWrite zeroState true).events = 1 ∧
      (HandleLightBulbOnWrite zeroState true).sends.length = 1 ∧
      HandleLightBulbOnWrite (HandleLightBulbOnWrite zeroState true).state true =
        noopWrite (HandleLightBulbOnWrite zeroState true).state :=
  ⟨(write_idempotence zeroState false 0).1 rfl,
   (write_idempotence zeroState false 0).2.2.2.2.2.2.2 rfl⟩

/-- C9: white color-temperature read repair.  On a read of the white
color-temperature characteristic a stored value below 50 is corrected to
50, the corrected state is persisted, and the corrected value is
returned; a stored value of at least 50 is returned unchanged with no
state change and no persistence; every other read handler returns the
in-memory field unmodified with no state change and no I/O. -/
theorem read_handlers (s : AccessoryState) :
    (s.whiteColorTemperature < 50 →
      HandleWhiteColorTemperatureRead s =
        { state := { s with whiteColorTemperature := 50 }
          saves := [{ s with whiteColorTemperature := 50 }], value := 50 }) ∧
      (50 ≤ s.whiteColorTemperature →
        HandleWhiteColorTemperatureRead s =
          { state := s, saves := [], value := s.whiteColorTemperature }) ∧
      HandleLightBulbOnRead s = { state := s, saves := [], value := s.lightBulbOn } ∧
      HandleLightBulbHueRead s = { state := s, saves := [], value := s.lightBulbHue } ∧
      HandleLightBulbSaturationRead s =
        { state := s, saves := [], value := s.lightBulbSaturation } ∧
      HandleLightBulbBrightnessRead s =
        { state := s, saves := [], value := s.lightBulbBrightness } ∧
      HandleWhiteOnRead s = { state := s, saves := [], value := s.whiteOn } ∧
      HandleWhiteBrightnessRead s =
        { state := s, saves := [], value := s.whiteBrightness } := by
  refine ⟨?_, ?_, rfl, rfl, rfl, rfl, rfl, rfl⟩
  · intro h
    simp [HandleWhiteColorTemperatureRead, h]
  · intro h
    simp [HandleWhiteColorTemperatureRead, Nat.not_lt_of_le h]

/-- C9 witness: reading the zero state (stored temperature 0) corrects it
to 50 and persists; reading the sample state (temperature 200) returns
200 untouched. -/
theorem read_handlers_witness :
    HandleWhiteColorTemperatureRead zeroState =
        { state := { zeroState with whiteColorTemperature := 50 }
          saves := [{ zeroState with whiteColorTemperature := 50 }], value := 50 } ∧
      HandleWhiteColorTemperatureRead sampleState =
        { state := sampleState, saves := [], value := sampleState.whiteColorTemperature } :=
  ⟨(read_handlers zeroState).1 (by decide),
   (read_handlers sampleState).2.1 (by decide)⟩

/-- `light_mode_t` of light.c. -/
inductive LightMode
  | WHITE
  | COLOR
deriving DecidableEq, Repr

/-- `light_shadow_t` of light.c: bool on (here `isOn`, since `on` is a
reserved token of this Lean environment), uint16 hue, uint8 saturation,
uint8 value, uint8 brightness, uint8 temperature, and the mode tag. -/
structure LightShadow where
  isOn : Bool
  hue : Nat
  saturation : Nat
  value : Nat
  brightness : Nat
  temperature : Nat
  mode : LightMode
deriving DecidableEq, Repr

/-- The zero-initialized light shadow (static storage). -/
def zeroLightShadow : LightShadow :=
  { isOn := false, hue := 0, saturation := 0, value := 0, brightness := 0
    temperature := 0, mode := LightMode.WHITE }

/-- In-range fields, guaranteed in C by the field types of
`light_shadow_t`. -/
def ValidLightShadow (s : LightShadow) : Prop :=
  s.hue < 65536 ∧ s.saturation < 256 ∧ s.value < 256 ∧
  s.brightness < 256 ∧ s.temperature < 256

instance (s : LightShadow) : Decidable (ValidLightShadow s) := by
  unfold ValidLightShadow; infer_instance

/-- `switch_shadow_t` of switch.c: a single boolean. -/
structure SwitchShadow where
  isOn : Bool
deriving DecidableEq, Repr

/-- `light_set_by_mode` of light.c, as a function of the desired shadow
(`light_shadow`) and the last-sent shadow (`light_shadow_last`),
returning the updated last-sent shadow and the packets sent, in order.
The C code computes `mode_changed`, stores the desired mode into the
last-sent shadow, and then, per mode, compares the mode-relevant fields
with the last-sent shadow and sends/updates when `mode_changed` or the
field differs.  Storing the mode only when it changed equals storing it
always, and the field comparisons read last-sent fields that the earlier
updates of this call do not touch, so the sequential C updates are
rendered by the nested updates below. -/
def light_set_by_mode (d last : LightShadow) : LightShadow × List (List Nat) :=
  match d.mode with
  | LightMode.WHITE =>
      let p1 := if d.mode ≠ last.mode ∨ d.brightness ≠ last.brightness
        then [light_set_brightness_internal d.brightness] else []
      let l1 := if d.mode ≠ last.mode ∨ d.brightness ≠ last.brightness
        then { last with mode := d.mode, brightness := d.brightness }
        else { last with mode := d.mode }
      let p2 := if d.mode ≠ last.mode ∨ d.temperature ≠ last.temperature
        then [light_set_temperature_internal d.temperature] else []
      let l2 := if d.mode ≠ last.mode ∨ d.temperature ≠ last.temperature
        then { l1 with temperature := d.temperature } else l1
      (l2, p1 ++ p2)
  | LightMode.COLOR =>
      let send := d.mode ≠ last.mode ∨ d.hue ≠ last.hue ∨
        d.saturation ≠ last.saturation ∨ d.value ≠ last.value
      let p := if send then [light_set_hsv_internal d.hue d.saturation d.value] else []
      let l := if send
        then { last with
                mode := d.mode
                hue := d.hue
                saturation := d.saturation
                value := d.value }
        else { last with mode := d.mode }
      (l, p)

/-- One iteration of the `light_task` loop of light.c: read the desired
on flag; if it differs from last-sent, run `light_set_by_mode` first when
turning on, send the on/off packet and update last-sent.on; otherwise run
`light_set_by_mode` only while on. -/
def lightTick (d last : LightShadow) : LightShadow × List (List Nat) :=
  if d.isOn ≠ last.isOn then
    if d.isOn then
      let r := light_set_by_mode d last
      ({ r.1 with isOn := d.isOn }, r.2 ++ [light_set_on_internal d.isOn])
    else
      ({ last with isOn := d.isOn }, [light_set_on_internal d.isOn])
  else
    if d.isOn then light_set_by_mode d last
    else (last, [])

/-- One iteration of the `switch_task` loop of switch.c. -/
def switchTick (d last : SwitchShadow) : SwitchShadow × List (List Nat) :=
  if d.isOn ≠ last.isOn then
    ({ last with isOn := d.isOn }, [switch_set_on_internal d.isOn])
  else (last, [])

/-- `light_color_set_on` of light.c: set the desired on flag and switch
the mode tag to COLOR. -/
def light_color_set_on (sh : LightShadow) (b : Bool) : LightShadow :=
  { sh with isOn := b, mode := LightMode.COLOR }

/-- `light_set_hue` of light.c: store the float hue into the uint16
field. -/
def light_set_hue (sh : LightShadow) (hue : Nat) : LightShadow :=
  { sh with hue := hue % 65536 }

/-- `light_set_saturation` of light.c. -/
def light_set_saturation (sh : LightShadow) (saturation : Nat) : LightShadow :=
  { sh with saturation := saturation % 256 }

/-- `light_set_value` of light.c. -/
def light_set_value (sh : LightShadow) (v : Nat) : LightShadow :=
  { sh with value := v % 256 }

/-- `light_white_set_on` of light.c: set the desired on flag and switch
the mode tag to WHITE. -/
def light_white_set_on (sh : LightShadow) (b : Bool) : LightShadow :=
  { sh with isOn := b, mode := LightMode.WHITE }

/-- `light_set_brightness` of light.c. -/
def light_set_brightness (sh : LightShadow) (brightness : Nat) : LightShadow :=
  { sh with brightness := brightness % 256 }

/-- `light_set_temperature` of light.c: encode the uint32 kelvin-like
input with the unsigned 32-bit expression `(300 - t) * 100 / 350` and
store it into the uint8 field. -/
def light_set_temperature (sh : LightShadow) (t : Nat) : LightShadow :=
  { sh with temperature :=
      (300 + 2 ^ 32 - t % 2 ^ 32) % 2 ^ 32 * 100 % 2 ^ 32 / 350 % 256 }

/-- `switch_set_on` of switch.c. -/
def switch_set_on (sh : SwitchShadow) (b : Bool) : SwitchShadow :=
  { sh with isOn := b }

/-- The boolean carried by an on/off packet (opcode 0x00 0x01), if the
packet is one. -/
def onOffValOf (p : List Nat) : Option Bool :=
  if p.length = 4 ∧ p.getD 1 0 = 0x00 ∧ p.getD 2 0 = 0x01
    then some (decide (p.getD 3 0 ≠ 0)) else none

/-- The little-endian uint16 carried by a brightness packet
(opcode 0x21 0x01), if the packet is one. -/
def brightnessValOf (p : List Nat) : Option Nat :=
  if p.length = 5 ∧ p.getD 1 0 = 0x21 then some (p.getD 3 0 + 256 * p.getD 4 0)
  else none

/-- The percent byte carried by a color-temperature packet
(opcode 0xF1 0x01), if the packet is one. -/
def temperatureValOf (p : List Nat) : Option Nat :=
  if p.length = 4 ∧ p.getD 1 0 = 0xF1 then some (p.getD 3 0) else none

/-- The hue, saturation and value carried by an HSV packet
(opcode 0x23 0x01), if the packet is one. -/
def hsvValOf (p : List Nat) : Option (Nat × Nat × Nat) :=
  if p.length = 7 ∧ p.getD 1 0 = 0x23
    then some (p.getD 3 0 + 256 * p.getD 4 0, p.getD 5 0, p.getD 6 0) else none

/-- A desired shadow that is off, in WHITE mode, with brightness 10. -/
def offDesired : LightShadow :=
  { isOn := false, hue := 0, saturation := 0, value := 0, brightness := 10
    temperature := 0, mode := LightMode.WHITE }

/-- A last-sent shadow that is off, in WHITE mode, with brightness 20 —
its brightness differs from `offDesired`. -/
def offLast : LightShadow :=
  { isOn := false, hue := 0, saturation := 0, value := 0, brightness := 20
    temperature := 0, mode := LightMode.WHITE }

/-- A desired shadow that is on, in WHITE mode, brightness 20 and
temperature 30. -/
def onWhiteDesired : LightShadow :=
  { isOn := true, hue := 0, saturation := 0, value := 0, brightness := 20
    temperature := 30, mode := LightMode.WHITE }

/-- A last-sent shadow that is on, in COLOR mode, with the same
brightness 20 and temperature 30 as `onWhiteDesired`. -/
def onColorLast : LightShadow :=
  { isOn := true, hue := 0, saturation := 0, value := 0, brightness := 20
    temperature := 30, mode := LightMode.COLOR }

/-- C10: while the desired on flag is false, a tick of the light task
emits no HSV, brightness or color-temperature command, whatever the
mode-relevant fields are; the only possible emission is the single
off command (sent exactly when last-sent was on). -/
theorem off_tick_only_onoff (d last : LightShadow) (h : d.isOn = false) :
    (lightTick d last).2 = (if last.isOn then [light_set_on_internal false] else []) ∧
      (lightTick d last).2.filterMap brightnessValOf = [] ∧
      (lightTick d last).2.filterMap temperatureValOf = [] ∧
      (lightTick d last).2.filterMap hsvValOf = [] := by
  unfold lightTick
  rw [h]
  by_cases hl : last.isOn = true
  · rw [hl]
    simp [light_set_on_internal, brightnessValOf, temperatureValOf, hsvValOf]
  · have hl2 : last.isOn = false := by
      cases hlast : last.isOn
      · rfl
      · exact absurd hlast hl
    rw [hl2]
    simp

/-- C10 witness: at an off desired shadow whose brightness differs from
last-sent, the tick emits nothing at all when last-sent is also off. -/
theorem off_tick_only_onoff_witness :
    (lightTick offDesired offLast).2 =
        (if offLast.isOn then [light_set_on_internal false] else []) ∧
      (lightTick offDesired offLast).2.filterMap brightnessValOf = [] ∧
      (lightTick offDesired offLast).2.filterMap temperatureValOf = [] ∧
      (lightTick offDesired offLast).2.filterMap hsvValOf = [] :=
  off_tick_only_onoff offDesired offLast rfl

/-- C2 counterexample: two concrete ticks refute the claim.  First, with
both shadows off and brightness differing (10 desired vs 20 last-sent),
the tick emits nothing — the mode-relevant comparison is not independent
of the on/off state.  Second, with both shadows on and every
mode-relevant field equal but the mode tag differing, the tick emits
brightness and temperature commands — a command is sent although the
fields do not differ. -/
theorem dispatcher_tick_cex :
    (offDesired.brightness ≠ offLast.brightness ∧
        offDesired.mode = LightMode.WHITE ∧ offLast.mode = LightMode.WHITE ∧
        (lightTick offDesired offLast).2 = []) ∧
      (onWhiteDesired.brightness = onColorLast.brightness ∧
        onWhiteDesired.temperature = onColorLast.temperature ∧
        (lightTick onWhiteDesired onColorLast).2 =
          [light_set_brightness_internal 20, light_set_temperature_internal 30]) := by
  refine ⟨⟨by decide, rfl, rfl, by decide⟩, ⟨rfl, rfl, by decide⟩⟩

theorem onOffValOf_on (b : Bool) :
    onOffValOf (light_set_on_internal b) = some b := by
  cases b <;> simp [onOffValOf, light_set_on_internal]

theorem onOffValOf_brightness (x : Nat) :
    onOffValOf (light_set_brightness_internal x) = none := by
  simp [onOffValOf, light_set_brightness_internal]

theorem onOffValOf_temperature (x : Nat) :
    onOffValOf (light_set_temperature_internal x) = none := by
  simp [onOffValOf, light_set_temperature_internal]

theorem onOffValOf_hsv (h s v : Nat) :
    onOffValOf (light_set_hsv_internal h s v) = none := by
  simp [onOffValOf, light_set_hsv_internal]

theorem brightnessValOf_on (b : Bool) :
    brightnessValOf (light_set_on_internal b) = none := by
  simp [brightnessValOf, light_set_on_internal]

theorem brightnessValOf_brightness (x : Nat) (hx : x < 256) :
    brightnessValOf (light_set_brightness_internal x) = some x := by
  simp [brightnessValOf, light_set_brightness_internal, Nat.mod_eq_of_lt hx]

theorem brightnessValOf_temperature (x : Nat) :
    brightnessValOf (light_set_temperature_internal x) = none := by
  simp [brightnessValOf, light_set_temperature_internal]

theorem brightnessValOf_hsv (h s v : Nat) :
    brightnessValOf (light_set_hsv_internal h s v) = none := by
  simp [brightnessValOf, light_set_hsv_internal]

theorem temperatureValOf_on (b : Bool) :
    temperatureValOf (light_set_on_internal b) = none := by
  cases b <;> simp [temperatureValOf, light_set_on_internal]

theorem temperatureValOf_brightness (x : Nat) :
    temperatureValOf (light_set_brightness_internal x) = none := by
  simp [temperatureValOf, light_set_brightness_internal]

theorem temperatureValOf_temperature (x : Nat) (hx : x < 256) :
    temperatureValOf (light_set_temperature_internal x) = some x := by
  simp [temperatureValOf, light_set_temperature_internal, Nat.mod_eq_of_lt hx]

theorem temperatureValOf_hsv (h s v : Nat) :
    temperatureValOf (light_set_hsv_internal h s v) = none := by
  simp [temperatureValOf, light_set_hsv_internal]

theorem hsvValOf_on (b : Bool) :
    hsvValOf (light_set_on_internal b) = none := by
  simp [hsvValOf, light_set_on_internal]

theorem hsvValOf_brightness (x : Nat) :
    hsvValOf (light_set_brightness_internal x) = none := by
  simp [hsvValOf, light_set_brightness_internal]

theorem hsvValOf_temperature (x : Nat) :
    hsvValOf (light_set_temperature_internal x) = none := by
  simp [hsvValOf, light_set_temperature_internal]

theorem hsvValOf_hsv (h s v : Nat) (hh : h < 65536) (hs : s < 256) (hv : v < 256) :
    hsvValOf (light_set_hsv_internal h s v) = some (h, s, v) := by
  simp [hsvValOf, light_set_hsv_internal, Nat.mod_eq_of_lt hh,
    Nat.mod_eq_of_lt hs, Nat.mod_eq_of_lt hv]
  omega

theorem onOffValOf_switch (b : Bool) :
    onOffValOf (switch_set_on_internal b) = some b := by
  cases b <;> simp [onOffValOf, switch_set_on_internal]

set_option maxHeartbeats 1000000 in
/-- Repeating a tick with an unchanged desired shadow emits nothing and
leaves the last-sent shadow fixed. -/
theorem lightTick_idem (d last : LightShadow) :
    lightTick d (lightTick d last).1 = ((lightTick d last).1, []) := by
  obtain ⟨don, dhue, dsat, dval, dbri, dtmp, dmode⟩ := d
  obtain ⟨lon, lhue, lsat, lval, lbri, ltmp, lmode⟩ := last
  cases dmode <;> cases lmode <;> cases don <;> cases lon <;>
    simp [lightTick, light_set_by_mode] <;> split_ifs <;> simp_all

set_option maxHeartbeats 1000000 in
theorem lightTick_isOn (d last : LightShadow) :
    (lightTick d last).1.isOn = d.isOn := by
  obtain ⟨don, dhue, dsat, dval, dbri, dtmp, dmode⟩ := d
  obtain ⟨lon, lhue, lsat, lval, lbri, ltmp, lmode⟩ := last
  cases dmode <;> cases lmode <;> cases don <;> cases lon <;>
    simp only [lightTick, light_set_by_mode] <;> split_ifs <;> simp_all

set_option maxHeartbeats 1000000 in
theorem lightTick_onoff_cmds (d last : LightShadow) :
    (lightTick d last).2.filterMap onOffValOf =
      (if d.isOn = last.isOn then [] else [d.isOn]) := by
  obtain ⟨don, dhue, dsat, dval, dbri, dtmp, dmode⟩ := d
  obtain ⟨lon, lhue, lsat, lval, lbri, ltmp, lmode⟩ := last
  cases dmode <;> cases lmode <;> cases don <;> cases lon <;>
    simp only [lightTick, light_set_by_mode] <;> split_ifs <;>
    simp_all [List.filterMap_append, onOffValOf_on, onOffValOf_brightness,
      onOffValOf_temperature, onOffValOf_hsv]

set_option maxHeartbeats 1000000 in
theorem lightTick_brightness_cmds (d last : LightShadow) (hb : d.brightness < 256) :
    (lightTick d last).2.filterMap brightnessValOf =
      (if d.isOn = true ∧ d.mode = LightMode.WHITE ∧
          (d.mode ≠ last.mode ∨ d.brightness ≠ last.brightness)
        then [d.brightness] else []) := by
  obtain ⟨don, dhue, dsat, dval, dbri, dtmp, dmode⟩ := d
  obtain ⟨lon, lhue, lsat, lval, lbri, ltmp, lmode⟩ := last
  cases dmode <;> cases lmode <;> cases don <;> cases lon <;>
    simp only [lightTick, light_set_by_mode] <;> split_ifs <;>
    simp_all [List.filterMap_append, brightnessValOf_on, brightnessValOf_brightness,
      brightnessValOf_temperature, brightnessValOf_hsv]

set_option maxHeartbeats 1000000 in
theorem lightTick_temperature_cmds (d last : LightShadow) (ht : d.temperature < 256) :
    (lightTick d last).2.filterMap temperatureValOf =
      (if d.isOn = true ∧ d.mode = LightMode.WHITE ∧
          (d.mode ≠ last.mode ∨ d.temperature ≠ last.temperature)
        then [d.temperature] else []) := by
  obtain ⟨don, dhue, dsat, dval, dbri, dtmp, dmode⟩ := d
  obtain ⟨lon, lhue, lsat, lval, lbri, ltmp, lmode⟩ := last
  cases dmode <;> cases lmode <;> cases don <;> cases lon <;>
    simp only [lightTick, light_set_by_mode] <;> split_ifs <;>
    simp_all [List.filterMap_append, temperatureValOf_on, temperatureValOf_brightness,
      temperatureValOf_temperature, temperatureValOf_hsv]

set_option maxHeartbeats 1000000 in
theorem lightTick_hsv_cmds (d last : LightShadow) (hh : d.hue < 65536)
    (hs : d.saturation < 256) (hv : d.value < 256) :
    (lightTick d last).2.filterMap hsvValOf =
      (if d.isOn = true ∧ d.mode = LightMode.COLOR ∧
          (d.mode ≠ last.mode ∨ d.hue ≠ last.hue ∨
            d.saturation ≠ last.saturation ∨ d.value ≠ last.value)
        then [(d.hue, d.saturation, d.value)] else []) := by
  obtain ⟨don, dhue, dsat, dval, dbri, dtmp, dmode⟩ := d
  obtain ⟨lon, lhue, lsat, lval, lbri, ltmp, lmode⟩ := last
  cases dmode <;> cases lmode <;> cases don <;> cases lon <;>
    simp only [lightTick, light_set_by_mode] <;> split_ifs <;>
    simp_all [List.filterMap_append, hsvValOf_on, hsvValOf_brightness,
      hsvValOf_temperature, hsvValOf_hsv]

/-- C2 amended: dispatcher tick step.  On each tick the on/off flag is
compared with last-sent and, if changed, a single on/off command is sent
and last-sent.on becomes the desired flag; the mode-relevant comparison
is gated on the desired on flag being true (not independent of it): while
on, a brightness or temperature command (WHITE) or one HSV command
(COLOR) is sent exactly when the mode tag changed or the corresponding
fields differ from last-sent, at most one command per kind per tick;
while off no mode command is emitted; and an immediately repeated tick
with the same desired shadow emits nothing. -/
theorem dispatcher_tick_diffing (d last : LightShadow) (hdv : ValidLightShadow d) :
    (lightTick d last).1.isOn = d.isOn ∧
      (lightTick d last).2.filterMap onOffValOf =
        (if d.isOn = last.isOn then [] else [d.isOn]) ∧
      (d.isOn = true → d.mode = LightMode.WHITE →
        (lightTick d last).2.filterMap brightnessValOf =
            (if d.mode ≠ last.mode ∨ d.brightness ≠ last.brightness
              then [d.brightness] else []) ∧
          (lightTick d last).2.filterMap temperatureValOf =
            (if d.mode ≠ last.mode ∨ d.temperature ≠ last.temperature
              then [d.temperature] else []) ∧
          (lightTick d last).2.filterMap hsvValOf = []) ∧
      (d.isOn = true → d.mode = LightMode.COLOR →
        (lightTick d last).2.filterMap hsvValOf =
            (if d.mode ≠ last.mode ∨ d.hue ≠ last.hue ∨
                d.saturation ≠ last.saturation ∨ d.value ≠ last.value
              then [(d.hue, d.saturation, d.value)] else []) ∧
          (lightTick d last).2.filterMap brightnessValOf = [] ∧
          (lightTick d last).2.filterMap temperatureValOf = []) ∧
      (d.isOn = false →
        (lightTick d last).2.filterMap brightnessValOf = [] ∧
          (lightTick d last).2.filterMap temperatureValOf = [] ∧
          (lightTick d last).2.filterMap hsvValOf = []) ∧
      lightTick d (lightTick d last).1 = ((lightTick d last).1, []) := by
  obtain ⟨hh, hs, hv, hb, ht⟩ := hdv
  refine ⟨lightTick_isOn d last, lightTick_onoff_cmds d last, ?_, ?_, ?_,
    lightTick_idem d last⟩
  · intro h1 h2
    rw [lightTick_brightness_cmds d last hb, lightTick_temperature_cmds d last ht,
      lightTick_hsv_cmds d last hh hs hv]
    rw [h2]
    refine ⟨?_, ?_, ?_⟩
    · split_ifs <;> simp_all
    · split_ifs <;> simp_all
    · split_ifs <;> simp_all
  · intro h1 h2
    rw [lightTick_brightness_cmds d last hb, lightTick_temperature_cmds d last ht,
      lightTick_hsv_cmds d last hh hs hv]
    rw [h2]
    refine ⟨?_, ?_, ?_⟩
    · split_ifs <;> simp_all
    · split_ifs <;> simp_all
    · split_ifs <;> simp_all
  · intro h1
    rw [lightTick_brightness_cmds d last hb, lightTick_temperature_cmds d last ht,
      lightTick_hsv_cmds d last hh hs hv, h1]
    refine ⟨?_, ?_, ?_⟩ <;> simp

/-- C2 witness: the diffing characterization at the on(white,b=10)
desired shadow against the zero last-sent shadow. -/
theorem dispatcher_tick_diffing_witness :
    ((lightTick (light_white_set_on (light_set_brightness zeroLightShadow 10) true)
        zeroLightShadow).1.isOn =
      (light_white_set_on (light_set_brightness zeroLightShadow 10) true).isOn) ∧
      ((lightTick (light_white_set_on (light_set_brightness zeroLightShadow 10) true)
          zeroLightShadow).2.filterMap onOffValOf =
        (if (light_white_set_on (light_set_brightness zeroLightShadow 10) true).isOn =
            zeroLightShadow.isOn
          then [] else [(light_white_set_on (light_set_brightness zeroLightShadow 10) true).isOn])) := by
  have h := dispatcher_tick_diffing
    (light_white_set_on (light_set_brightness zeroLightShadow 10) true)
    zeroLightShadow (by decide)
  exact ⟨h.1, h.2.1⟩

set_option maxHeartbeats 1000000 in
theorem lightTick_last_isOn (d last : LightShadow) :
    (lightTick d last).1.isOn =
      (((lightTick d last).2.filterMap onOffValOf).getLast?).getD last.isOn := by
  obtain ⟨don, dhue, dsat, dval, dbri, dtmp, dmode⟩ := d
  obtain ⟨lon, lhue, lsat, lval, lbri, ltmp, lmode⟩ := last
  cases dmode <;> cases lmode <;> cases don <;> cases lon <;>
    simp only [lightTick, light_set_by_mode] <;> split_ifs <;>
    simp_all [List.filterMap_append, onOffValOf_on, onOffValOf_brightness,
      onOffValOf_temperature, onOffValOf_hsv]

set_option maxHeartbeats 1000000 in
theorem lightTick_last_brightness (d last : LightShadow) (hb : d.brightness < 256) :
    (lightTick d last).1.brightness =
      (((lightTick d last).2.filterMap brightnessValOf).getLast?).getD last.brightness := by
  obtain ⟨don, dhue, dsat, dval, dbri, dtmp, dmode⟩ := d
  obtain ⟨lon, lhue, lsat, lval, lbri, ltmp, lmode⟩ := last
  cases dmode <;> cases lmode <;> cases don <;> cases lon <;>
    simp only [lightTick, light_set_by_mode] <;> split_ifs <;>
    simp_all [List.filterMap_append, brightnessValOf_on, brightnessValOf_brightness,
      brightnessValOf_temperature, brightnessValOf_hsv]

set_option maxHeartbeats 1000000 in
theorem lightTick_last_temperature (d last : LightShadow) (ht : d.temperature < 256) :
    (lightTick d last).1.temperature =
      (((lightTick d last).2.filterMap temperatureValOf).getLast?).getD last.temperature := by
  obtain ⟨don, dhue, dsat, dval, dbri, dtmp, dmode⟩ := d
  obtain ⟨lon, lhue, lsat, lval, lbri, ltmp, lmode⟩ := last
  cases dmode <;> cases lmode <;> cases don <;> cases lon <;>
    simp only [lightTick, light_set_by_mode] <;> split_ifs <;>
    simp_all [List.filterMap_append, temperatureValOf_on, temperatureValOf_brightness,
      temperatureValOf_temperature, temperatureValOf_hsv]

set_option maxHeartbeats 1000000 in
theorem lightTick_last_hsv (d last : LightShadow) (hh : d.hue < 65536)
    (hs : d.saturation < 256) (hv : d.value < 256) :
    ((lightTick d last).1.hue, (lightTick d last).1.saturation,
        (lightTick d last).1.value) =
      (((lightTick d last).2.filterMap hsvValOf).getLast?).getD
        (last.hue, last.saturation, last.value) := by
  obtain ⟨don, dhue, dsat, dval, dbri, dtmp, dmode⟩ := d
  obtain ⟨lon, lhue, lsat, lval, lbri, ltmp, lmode⟩ := last
  cases dmode <;> cases lmode <;> cases don <;> cases lon <;>
    simp only [lightTick, light_set_by_mode] <;> split_ifs <;>
    simp_all [List.filterMap_append, hsvValOf_on, hsvValOf_brightness,
      hsvValOf_temperature, hsvValOf_hsv]

theorem switchTick_last_isOn (d last : SwitchShadow) :
    (switchTick d last).1.isOn =
      (((switchTick d last).2.filterMap onOffValOf).getLast?).getD last.isOn := by
  obtain ⟨don⟩ := d
  obtain ⟨lon⟩ := last
  cases don <;> cases lon <;>
    simp only [switchTick] <;> split_ifs <;> simp_all [onOffValOf_switch]

/-- C6: last-sent mirror invariant.  After a tick of the light task and
of the switch task, each field of the last-sent shadow equals the value
carried by the last command of that kind emitted in the tick, or its
previous value when no command carrying it was emitted (the mode tag,
which no command carries, is exempt); the hue, saturation and value
fields are carried together by the HSV command. -/
theorem last_sent_mirror (d last : LightShadow) (sd sl : SwitchShadow)
    (hdv : ValidLightShadow d) :
    (lightTick d last).1.isOn =
        (((lightTick d last).2.filterMap onOffValOf).getLast?).getD last.isOn ∧
      (lightTick d last).1.brightness =
        (((lightTick d last).2.filterMap brightnessValOf).getLast?).getD
          last.brightness ∧
      (lightTick d last).1.temperature =
        (((lightTick d last).2.filterMap temperatureValOf).getLast?).getD
          last.temperature ∧
      ((lightTick d last).1.hue, (lightTick d last).1.saturation,
          (lightTick d last).1.value) =
        (((lightTick d last).2.filterMap hsvValOf).getLast?).getD
          (last.hue, last.saturation, last.value) ∧
      (switchTick sd sl).1.isOn =
        (((switchTick sd sl).2.filterMap onOffValOf).getLast?).getD sl.isOn := by
  obtain ⟨hh, hs, hv, hb, ht⟩ := hdv
  exact ⟨lightTick_last_isOn d last, lightTick_last_brightness d last hb,
    lightTick_last_temperature d last ht, lightTick_last_hsv d last hh hs hv,
    switchTick_last_isOn sd sl⟩

/-- C6 witness: the mirror equations after one tick at a concrete valid
desired shadow (on, COLOR, hue 300) against the zero last-sent shadow,
and a switch tick turning on. -/
theorem last_sent_mirror_witness :
    ((lightTick (light_color_set_on (light_set_hue zeroLightShadow 300) true)
          zeroLightShadow).1.isOn =
        ((((lightTick (light_color_set_on (light_set_hue zeroLightShadow 300) true)
            zeroLightShadow).2.filterMap onOffValOf).getLast?).getD
          zeroLightShadow.isOn)) ∧
      ((switchTick (switch_set_on ⟨false⟩ true) ⟨false⟩).1.isOn =
        ((((switchTick (switch_set_on ⟨false⟩ true) ⟨false⟩).2.filterMap
            onOffValOf).getLast?).getD (SwitchShadow.mk false).isOn)) := by
  have h := last_sent_mirror (light_color_set_on (light_set_hue zeroLightShadow 300) true)
    zeroLightShadow (switch_set_on ⟨false⟩ true) ⟨false⟩ (by decide)
  exact ⟨h.1, h.2.2.2.2⟩

end Bridge
